import Mathlib

/-!
Shallow embedding of the ego-vehicle bridge (carla_ros_bridge/ego_vehicle.py and
carla_ros_bridge/object_sensor.py) and proofs about it.

Numeric fields are modelled by exact rationals; the external transcendental
library functions the code calls (math.degrees, math.radians, math.sqrt,
tf.transformations.euler_from_quaternion, carla.Rotation.get_forward_vector)
are passed as explicit function parameters, except where a claim is about the
square root itself, which is modelled over the reals with Real.sqrt.
Transport headers and timestamps are metadata of the external messaging layers
and are not part of the model.
-/

namespace CarlaRosBridge

/-- A 3-component vector (carla.Vector3D and the geometry vectors of the
ROS messages), with exact rational components. -/
structure Vec3 where
  x : ℚ
  y : ℚ
  z : ℚ
  deriving DecidableEq

/-- Quaternion orientation with components (x, y, z, w), as used by
geometry_msgs and by tf.transformations.euler_from_quaternion. -/
structure Quaternion where
  x : ℚ
  y : ℚ
  z : ℚ
  w : ℚ
  deriving DecidableEq

/-- Euler rotation in degrees, as in carla.Rotation. -/
structure Rotation where
  pitch : ℚ
  yaw : ℚ
  roll : ℚ
  deriving DecidableEq

/-- carla.Transform: a location and a rotation. -/
structure Transform where
  location : Vec3
  rotation : Rotation
  deriving DecidableEq

/-- A ROS pose (geometry_msgs/Pose): position and orientation. -/
structure Pose where
  position : Vec3
  orientation : Quaternion
  deriving DecidableEq

/-- A ROS twist (geometry_msgs/Twist): linear and angular velocity. -/
structure Twist where
  linear : Vec3
  angular : Vec3
  deriving DecidableEq

/-- Multiplication of a carla vector by a scalar, `vector * s`. -/
def Vec3.scale (v : Vec3) (s : ℚ) : Vec3 :=
  ⟨v.x * s, v.y * s, v.z * s⟩

/-- The path point of an Apollo trajectory point: 2D position and heading
theta (radians). -/
structure PathPoint where
  x : ℚ
  y : ℚ
  theta : ℚ
  deriving DecidableEq

/-- One timed waypoint of an Apollo ADCTrajectory: path point, target
speed v, and time offset relative_time from the trajectory timestamp. -/
structure TrajectoryPoint where
  path_point : PathPoint
  v : ℚ
  relative_time : ℚ
  deriving DecidableEq

/-- An Apollo ADCTrajectory as consumed by EgoVehicle.set_pose:
the header timestamp (header.timestamp_sec) and the ordered waypoint list. -/
structure ADCTrajectory where
  timestamp_sec : ℚ
  trajectory_point : List TrajectoryPoint
  deriving DecidableEq

/-- The mutable simulator-actor state touched by EgoVehicle.set_pose:
its transform and its velocity vector. -/
structure ActorState where
  transform : Transform
  velocity : Vec3
  deriving DecidableEq

/-- The body of the loop in EgoVehicle.set_pose (lines 230-234): overwrite
location.x with the waypoint path x, location.y with the negated path y,
rotation.yaw with the negated theta converted to degrees, then set the
velocity to the forward vector of the updated rotation times the target
speed. `degreesFn` models math.degrees and `forwardFn` models
carla.Rotation.get_forward_vector. -/
def applyWaypoint (degreesFn : ℚ → ℚ) (forwardFn : Rotation → Vec3)
    (tp : TrajectoryPoint) (actor : ActorState) : ActorState :=
  let tr := actor.transform
  let tr2 : Transform :=
    { location := { tr.location with x := tp.path_point.x, y := -tp.path_point.y }
      rotation := { tr.rotation with yaw := -(degreesFn tp.path_point.theta) } }
  { transform := tr2
    velocity := (forwardFn tr2.rotation).scale tp.v }

/-- The scan of EgoVehicle.set_pose: return the first trajectory point,
in stored order, whose relative_time strictly exceeds dt; the loop
returns as soon as it applies one, which is List.find?. -/
def selectWaypoint (dt : ℚ) (pts : List TrajectoryPoint) : Option TrajectoryPoint :=
  pts.find? (fun tp => decide (dt < tp.relative_time))

/-- EgoVehicle.set_pose (lines 221-235): if no trajectory has been
received, do nothing; otherwise compute dt = now - trajectory timestamp,
and apply the first waypoint whose relative_time exceeds dt, if any. -/
def set_pose (degreesFn : ℚ → ℚ) (forwardFn : Rotation → Vec3) (now : ℚ)
    (planned_trajectory : Option ADCTrajectory) (actor : ActorState) : ActorState :=
  match planned_trajectory with
  | none => actor
  | some traj =>
    let dt := now - traj.timestamp_sec
    match selectWaypoint dt traj.trajectory_point with
    | none => actor
    | some tp => applyWaypoint degreesFn forwardFn tp actor

/-- The Apollo Chassis.GearPosition enum (external proto schema). -/
inductive GearPosition where
  | gear_neutral
  | gear_drive
  | gear_reverse
  | gear_parking
  | gear_low
  | gear_invalid
  | gear_none
  deriving DecidableEq

/-- The fields of an Apollo ControlCommand read by
EgoVehicle.cyber_control_command_updated. -/
structure ControlCommand where
  parking_brake : Bool
  brake : ℚ
  steering_target : ℚ
  throttle : ℚ
  gear_location : GearPosition
  deriving DecidableEq

/-- carla.VehicleControl as filled in by the two inbound conversions. -/
structure VehicleControl where
  hand_brake : Bool
  brake : ℚ
  steer : ℚ
  throttle : ℚ
  reverse : Bool
  deriving DecidableEq

/-- EgoVehicle.cyber_control_command_updated (lines 278-285): convert an
Apollo ControlCommand in the 0-100 percentage domain to a
carla.VehicleControl in the 0.0-1.0 fraction domain, negating the
steering and deriving reverse from the gear position. -/
def cyber_control_command_updated (c : ControlCommand) : VehicleControl :=
  { hand_brake := c.parking_brake
    brake := c.brake / 100
    steer := -c.steering_target / 100
    throttle := c.throttle / 100
    reverse := decide (c.gear_location = GearPosition.gear_reverse) }

/-- EgoVehicle.get_vector_length_squared: x*x + y*y + z*z. -/
def get_vector_length_squared (v : Vec3) : ℚ :=
  v.x * v.x + v.y * v.y + v.z * v.z

/-- EgoVehicle.get_vehicle_speed_abs over the rational model: math.sqrt is
the external parameter sqrtFn, applied to the squared length of the
velocity vector. The real-number semantics of the square root itself is
given by RealSem.get_vehicle_speed_abs below. -/
def get_vehicle_speed_abs (sqrtFn : ℚ → ℚ) (velocity : Vec3) : ℚ :=
  sqrtFn (get_vector_length_squared velocity)

/-- EgoVehicle.get_vehicle_acceleration_abs over the rational model,
with math.sqrt as the external parameter sqrtFn. -/
def get_vehicle_acceleration_abs (sqrtFn : ℚ → ℚ) (acceleration : Vec3) : ℚ :=
  sqrtFn (get_vector_length_squared acceleration)

/-- The control state read back from carla_actor.get_control(), echoed
field by field into the status message. -/
structure ControlState where
  throttle : ℚ
  steer : ℚ
  brake : ℚ
  hand_brake : Bool
  reverse : Bool
  gear : ℤ
  manual_gear_shift : Bool
  deriving DecidableEq

/-- Per-wheel physics parameters from the simulator physics description. -/
structure WheelPhysics where
  tire_friction : ℚ
  damping_rate : ℚ
  steer_angle : ℚ
  disable_steering : Bool
  deriving DecidableEq

/-- Aggregate physics parameters from carla_actor.get_physics_control(). -/
structure VehiclePhysics where
  wheels : List WheelPhysics
  max_rpm : ℚ
  moi : ℚ
  damping_rate_full_throttle : ℚ
  damping_rate_zero_throttle_clutch_engaged : ℚ
  damping_rate_zero_throttle_clutch_disengaged : ℚ
  use_gear_autobox : Bool
  gear_switch_time : ℚ
  clutch_strength : ℚ
  mass : ℚ
  drag_coefficient : ℚ
  center_of_mass : Vec3
  deriving DecidableEq

/-- Everything EgoVehicle.send_vehicle_msgs reads from the actor, the
parent and the parameter storage on one tick. -/
structure TickInput where
  challenge_mode : Bool
  velocity : Vec3
  acceleration : Vec3
  ros_pose : Pose
  ros_twist : Twist
  control : ControlState
  physics : VehiclePhysics
  type_id : String
  role_name : String
  deriving DecidableEq

/-- CarlaEgoVehicleStatus as filled in by send_vehicle_msgs. -/
structure CarlaEgoVehicleStatus where
  velocity : ℚ
  acceleration : ℚ
  orientation : Quaternion
  control : ControlState
  deriving DecidableEq

/-- The Apollo Chassis.DrivingMode enum (external proto schema). -/
inductive DrivingMode where
  | complete_manual
  | complete_auto_drive
  | auto_steer_only
  | auto_speed_only
  | emergency_mode
  deriving DecidableEq

/-- The Apollo Chassis message fields filled in by send_vehicle_msgs. -/
structure Chassis where
  engine_started : Bool
  speed_mps : ℚ
  throttle_percentage : ℚ
  brake_percentage : ℚ
  steering_percentage : ℚ
  parking_brake : Bool
  driving_mode : DrivingMode
  deriving DecidableEq

/-- One wheel record of the CarlaEgoVehicleInfo message. -/
structure CarlaEgoVehicleInfoWheel where
  tire_friction : ℚ
  damping_rate : ℚ
  steer_angle : ℚ
  disable_steering : Bool
  deriving DecidableEq

/-- The static CarlaEgoVehicleInfo message. -/
structure CarlaEgoVehicleInfo where
  type : String
  rolename : String
  wheels : List CarlaEgoVehicleInfoWheel
  max_rpm : ℚ
  moi : ℚ
  damping_rate_full_throttle : ℚ
  damping_rate_zero_throttle_clutch_engaged : ℚ
  damping_rate_zero_throttle_clutch_disengaged : ℚ
  use_gear_autobox : Bool
  gear_switch_time : ℚ
  clutch_strength : ℚ
  mass : ℚ
  drag_coefficient : ℚ
  center_of_mass : Vec3
  deriving DecidableEq

/-- nav_msgs Odometry as filled in by send_vehicle_msgs: pose from
get_current_ros_pose and twist from get_current_ros_twist. -/
structure Odometry where
  pose : Pose
  twist : Twist
  deriving DecidableEq

/-- The Apollo LocalizationEstimate fields filled in by
send_vehicle_msgs. -/
structure LocalizationEstimate where
  position : Vec3
  linear_velocity : Vec3
  angular_velocity_vrf : Vec3
  linear_acceleration_vrf : Vec3
  heading : ℚ
  deriving DecidableEq

/-- The vehicle-status message built at lines 117-128: speed and
acceleration magnitudes, current orientation, and the raw control echo. -/
def mkVehicleStatus (sqrtFn : ℚ → ℚ) (inp : TickInput) : CarlaEgoVehicleStatus :=
  { velocity := get_vehicle_speed_abs sqrtFn inp.velocity
    acceleration := get_vehicle_acceleration_abs sqrtFn inp.acceleration
    orientation := inp.ros_pose.orientation
    control := inp.control }

/-- The chassis message built at lines 131-139: speed, control fractions
rescaled to percentages, parking brake, fixed auto-drive mode. -/
def mkChassis (sqrtFn : ℚ → ℚ) (inp : TickInput) : Chassis :=
  { engine_started := true
    speed_mps := get_vehicle_speed_abs sqrtFn inp.velocity
    throttle_percentage := inp.control.throttle * 100
    brake_percentage := inp.control.brake * 100
    steering_percentage := inp.control.steer * 100
    parking_brake := inp.control.hand_brake
    driving_mode := DrivingMode.complete_auto_drive }

/-- One wheel record of the vehicle-info message (lines 149-155);
`radiansFn` models math.radians. -/
def mkWheelInfo (radiansFn : ℚ → ℚ) (w : WheelPhysics) : CarlaEgoVehicleInfoWheel :=
  { tire_friction := w.tire_friction
    damping_rate := w.damping_rate
    steer_angle := radiansFn w.steer_angle
    disable_steering := w.disable_steering }

/-- The static vehicle-info message built at lines 144-172. -/
def mkVehicleInfo (radiansFn : ℚ → ℚ) (inp : TickInput) : CarlaEgoVehicleInfo :=
  { type := inp.type_id
    rolename := inp.role_name
    wheels := inp.physics.wheels.map (mkWheelInfo radiansFn)
    max_rpm := inp.physics.max_rpm
    moi := inp.physics.moi
    damping_rate_full_throttle := inp.physics.damping_rate_full_throttle
    damping_rate_zero_throttle_clutch_engaged :=
      inp.physics.damping_rate_zero_throttle_clutch_engaged
    damping_rate_zero_throttle_clutch_disengaged :=
      inp.physics.damping_rate_zero_throttle_clutch_disengaged
    use_gear_autobox := inp.physics.use_gear_autobox
    gear_switch_time := inp.physics.gear_switch_time
    clutch_strength := inp.physics.clutch_strength
    mass := inp.physics.mass
    drag_coefficient := inp.physics.drag_coefficient
    center_of_mass := inp.physics.center_of_mass }

/-- The odometry message built at lines 178-181. -/
def mkOdometry (inp : TickInput) : Odometry :=
  { pose := inp.ros_pose
    twist := inp.ros_twist }

/-- The localization message built at lines 188-204 from the odometry
message; `eulerFn` models tf.transformations.euler_from_quaternion and
returns (roll, pitch, yaw), of which the code keeps the yaw as heading. -/
def mkLocalization (eulerFn : Quaternion → ℚ × ℚ × ℚ) (odometry : Odometry) :
    LocalizationEstimate :=
  { position := ⟨odometry.pose.position.x, odometry.pose.position.y, 0⟩
    linear_velocity := odometry.twist.linear
    angular_velocity_vrf := odometry.twist.angular
    linear_acceleration_vrf := ⟨0, 0, 0⟩
    heading := (eulerFn odometry.pose.orientation).2.2 }

/-- One outbound message of send_vehicle_msgs, tagged by channel. -/
inductive Emission where
  | vehicle_status (m : CarlaEgoVehicleStatus)
  | chassis (m : Chassis)
  | vehicle_info (m : CarlaEgoVehicleInfo)
  | odometry (m : Odometry)
  | localization (m : LocalizationEstimate)
  deriving DecidableEq

/-- EgoVehicle.send_vehicle_msgs (lines 107-205): emit the status and
chassis messages, emit the static vehicle-info message only when the
vehicle_info_published latch is still unset (setting it), and emit the
odometry plus derived localization messages only when the challenge_mode
parameter is false. Returns the new latch value and the emissions of
this tick, in emission order. -/
def send_vehicle_msgs (sqrtFn radiansFn : ℚ → ℚ)
    (eulerFn : Quaternion → ℚ × ℚ × ℚ) (inp : TickInput)
    (vehicle_info_published : Bool) : Bool × List Emission :=
  let infoPart : List Emission :=
    if vehicle_info_published then []
    else [Emission.vehicle_info (mkVehicleInfo radiansFn inp)]
  let published2 : Bool := if vehicle_info_published then vehicle_info_published else true
  let odoPart : List Emission :=
    if inp.challenge_mode then []
    else
      let odometry := mkOdometry inp
      [Emission.odometry odometry,
       Emission.localization (mkLocalization eulerFn odometry)]
  (published2,
    Emission.vehicle_status (mkVehicleStatus sqrtFn inp)
      :: Emission.chassis (mkChassis sqrtFn inp)
      :: (infoPart ++ odoPart))

/-- Run send_vehicle_msgs over a sequence of ticks, threading the
vehicle_info_published latch; returns the per-tick emission lists. -/
def runTicks (sqrtFn radiansFn : ℚ → ℚ)
    (eulerFn : Quaternion → ℚ × ℚ × ℚ) :
    Bool → List TickInput → List (List Emission)
  | _, [] => []
  | published, inp :: rest =>
    let r := send_vehicle_msgs sqrtFn radiansFn eulerFn inp published
    r.2 :: runTicks sqrtFn radiansFn eulerFn r.1 rest

/-- Number of vehicle-info emissions in a tick's emission list. -/
def countInfo : List Emission → ℕ
  | [] => 0
  | Emission.vehicle_info _ :: rest => countInfo rest + 1
  | _ :: rest => countInfo rest

end CarlaRosBridge

namespace RealSem

/-- A 3-component vector over the reals, for the exact semantics of the
square root in the speed computations. -/
structure Vec3 where
  x : ℝ
  y : ℝ
  z : ℝ

/-- EgoVehicle.get_vector_length_squared over the reals. -/
noncomputable def get_vector_length_squared (v : Vec3) : ℝ :=
  v.x * v.x + v.y * v.y + v.z * v.z

/-- EgoVehicle.get_vehicle_speed_abs: math.sqrt of the squared length of
the velocity vector. -/
noncomputable def get_vehicle_speed_abs (velocity : Vec3) : ℝ :=
  Real.sqrt (get_vector_length_squared velocity)

/-- EgoVehicle.get_vehicle_acceleration_abs: math.sqrt of the squared
length of the acceleration vector. -/
noncomputable def get_vehicle_acceleration_abs (acceleration : Vec3) : ℝ :=
  Real.sqrt (get_vector_length_squared acceleration)

end RealSem

namespace CarlaRosBridge

/-- A Python int object as compared by the `is`/`is not` operators:
CPython object identity (objId) together with the numeric value. Two
objects with equal values need not be identical. -/
structure PyInt where
  objId : ℕ
  val : ℤ
  deriving DecidableEq

/-- A child actor of the parent: either a Vehicle, carrying the payload
returned by its get_ros_object_msg (abstracted to a token), or some
other actor kind. -/
inductive ChildActor where
  | vehicle (objMsg : ℕ)
  | other
  deriving DecidableEq

/-- object_sensor.get_filtered_objectarray (lines 17-28): walk the
parent's child actors and collect the object message of every child
that is a Vehicle and whose actor id is NOT THE SAME OBJECT as the
filtered id (the code compares with `is not`, i.e. object identity,
not numeric equality). -/
def get_filtered_objectarray (child_actors : List (PyInt × ChildActor))
    (filtered_id : PyInt) : List ℕ :=
  child_actors.foldr
    (fun p acc =>
      match p.2 with
      | ChildActor.vehicle objMsg =>
          if filtered_id.objId ≠ p.1.objId then objMsg :: acc else acc
      | ChildActor.other => acc)
    []

end CarlaRosBridge

namespace CarlaRosBridge

/-- The zero vector, used in concrete witnesses. -/
def vec0 : Vec3 := ⟨0, 0, 0⟩

/-- The identity quaternion, used in concrete witnesses. -/
def quat0 : Quaternion := ⟨0, 0, 0, 1⟩

/-- The zero rotation, used in concrete witnesses. -/
def rot0 : Rotation := ⟨0, 0, 0⟩

/-- An actor at the origin with zero velocity, used in concrete witnesses. -/
def actor0 : ActorState := ⟨⟨vec0, rot0⟩, vec0⟩

/-- A concrete stand-in for the external math.degrees, math.radians or
math.sqrt parameter in witnesses. -/
def idQ : ℚ → ℚ := fun t => t

/-- A concrete stand-in for carla.Rotation.get_forward_vector in witnesses. -/
def fwd0 : Rotation → Vec3 := fun _ => ⟨1, 0, 0⟩

/-- A concrete stand-in for euler_from_quaternion in witnesses. -/
def euler0 : Quaternion → ℚ × ℚ × ℚ := fun _ => (0, 0, 0)

/-- A trajectory point with the given relative time and zero path data. -/
def tpAt (t : ℚ) : TrajectoryPoint := ⟨⟨0, 0, 0⟩, 0, t⟩

/-- The trajectory with relative times [1, 2, 3] of the claim examples. -/
def traj123 : ADCTrajectory := ⟨0, [tpAt 1, tpAt 2, tpAt 3]⟩

/-- List.find? returns the first element satisfying the predicate: the hit
satisfies it and everything before the hit falsifies it. -/
theorem find?_first {α : Type} (p : α → Bool) (l : List α) (b : α)
    (h : l.find? p = some b) :
    p b = true ∧ ∃ pre post, l = pre ++ b :: post ∧ ∀ a ∈ pre, p a = false := by
  induction l with
  | nil => simp [List.find?] at h
  | cons x xs ih =>
    cases hp : p x with
    | true =>
      simp only [List.find?, hp] at h
      cases h
      exact ⟨hp, [], xs, rfl, by simp⟩
    | false =>
      simp only [List.find?, hp] at h
      obtain ⟨hb, pre, post, heq, hall⟩ := ih h
      refine ⟨hb, x :: pre, post, by rw [heq]; rfl, ?_⟩
      intro a ha
      rcases List.mem_cons.mp ha with rfl | ha2
      · exact hp
      · exact hall a ha2

/-- Claim C1: for every non-null trajectory and tick, the waypoint applied by
set_pose is the first waypoint in stored order whose relative_time strictly
exceeds dt (dt = now minus the trajectory reference timestamp): the applied
waypoint satisfies dt < relative_time, every waypoint stored before it has
relative_time ≤ dt, exactly that one waypoint is applied this tick, and on
relative times [1, 2, 3] with dt = 1.5 the waypoint with relative time 2 is
selected. -/
theorem claim_C1_first_future_waypoint_applied
    (degreesFn : ℚ → ℚ) (forwardFn : Rotation → Vec3) (now : ℚ)
    (traj : ADCTrajectory) (actor : ActorState) (w : TrajectoryPoint)
    (hsel : selectWaypoint (now - traj.timestamp_sec) traj.trajectory_point = some w) :
    (now - traj.timestamp_sec < w.relative_time ∧
      (∃ pre post, traj.trajectory_point = pre ++ w :: post ∧
        ∀ u ∈ pre, u.relative_time ≤ now - traj.timestamp_sec) ∧
      set_pose degreesFn forwardFn now (some traj) actor =
        applyWaypoint degreesFn forwardFn w actor) ∧
    selectWaypoint (3/2 - traj123.timestamp_sec) traj123.trajectory_point =
      some (tpAt 2) := by
  have hfind : traj.trajectory_point.find?
      (fun tp => decide (now - traj.timestamp_sec < tp.relative_time)) = some w := hsel
  obtain ⟨hb, pre, post, heq, hall⟩ := find?_first _ _ _ hfind
  refine ⟨⟨of_decide_eq_true hb, ⟨pre, post, heq, ?_⟩, ?_⟩,
    by norm_num [selectWaypoint, List.find?, traj123, tpAt]⟩
  · intro u hu
    exact not_lt.mp (of_decide_eq_false (hall u hu))
  · simp [set_pose, hsel]

/-- Concrete instantiation of claim C1 at the [1, 2, 3] trajectory with
dt = 1.5. -/
theorem claim_C1_first_future_waypoint_applied_witness :
    selectWaypoint ((3 : ℚ)/2 - traj123.timestamp_sec) traj123.trajectory_point =
      some (tpAt 2) ∧
    set_pose idQ fwd0 (3/2) (some traj123) actor0 = applyWaypoint idQ fwd0 (tpAt 2) actor0 :=
  ⟨by norm_num [selectWaypoint, List.find?, traj123, tpAt],
   (claim_C1_first_future_waypoint_applied idQ fwd0 (3/2) traj123 actor0 (tpAt 2)
      (by norm_num [selectWaypoint, List.find?, traj123, tpAt])).1.2.2⟩

/-- Claim C2: when a qualifying waypoint is found, set_pose sets position x to
the waypoint path x, position y to the negated path y, yaw to the negated
theta converted from radians to degrees, leaves z, pitch and roll unchanged,
and sets the velocity to the forward vector of the new orientation scaled by
the waypoint target speed v. -/
theorem claim_C2_pose_velocity_update
    (degreesFn : ℚ → ℚ) (forwardFn : Rotation → Vec3) (now : ℚ)
    (traj : ADCTrajectory) (actor : ActorState) (tp : TrajectoryPoint)
    (hsel : selectWaypoint (now - traj.timestamp_sec) traj.trajectory_point = some tp) :
    (set_pose degreesFn forwardFn now (some traj) actor).transform.location.x =
        tp.path_point.x ∧
    (set_pose degreesFn forwardFn now (some traj) actor).transform.location.y =
        -tp.path_point.y ∧
    (set_pose degreesFn forwardFn now (some traj) actor).transform.rotation.yaw =
        -(degreesFn tp.path_point.theta) ∧
    (set_pose degreesFn forwardFn now (some traj) actor).transform.location.z =
        actor.transform.location.z ∧
    (set_pose degreesFn forwardFn now (some traj) actor).transform.rotation.pitch =
        actor.transform.rotation.pitch ∧
    (set_pose degreesFn forwardFn now (some traj) actor).transform.rotation.roll =
        actor.transform.rotation.roll ∧
    (set_pose degreesFn forwardFn now (some traj) actor).velocity =
      (forwardFn (set_pose degreesFn forwardFn now (some traj) actor).transform.rotation).scale
        tp.v := by
  simp [set_pose, hsel, applyWaypoint, Vec3.scale]

/-- Concrete instantiation of claim C2 at the [1, 2, 3] trajectory with
dt = 1.5. -/
theorem claim_C2_pose_velocity_update_witness :
    (set_pose idQ fwd0 (3/2) (some traj123) actor0).transform.location.x =
        (tpAt 2).path_point.x ∧
    (set_pose idQ fwd0 (3/2) (some traj123) actor0).velocity =
      (fwd0 (set_pose idQ fwd0 (3/2) (some traj123) actor0).transform.rotation).scale
        (tpAt 2).v :=
  ⟨(claim_C2_pose_velocity_update idQ fwd0 (3/2) traj123 actor0 (tpAt 2)
      (by norm_num [selectWaypoint, List.find?, traj123, tpAt])).1,
   (claim_C2_pose_velocity_update idQ fwd0 (3/2) traj123 actor0 (tpAt 2)
      (by norm_num [selectWaypoint, List.find?, traj123, tpAt])).2.2.2.2.2.2⟩

/-- Claim C3: with a null trajectory, or when no waypoint relative_time
strictly exceeds dt, set_pose leaves the actor state (transform and velocity)
unchanged. -/
theorem claim_C3_no_mutation_when_exhausted
    (degreesFn : ℚ → ℚ) (forwardFn : Rotation → Vec3) (now : ℚ) (actor : ActorState) :
    set_pose degreesFn forwardFn now none actor = actor ∧
    ∀ traj : ADCTrajectory,
      selectWaypoint (now - traj.timestamp_sec) traj.trajectory_point = none →
      set_pose degreesFn forwardFn now (some traj) actor = actor := by
  refine ⟨rfl, ?_⟩
  intro traj hnone
  simp [set_pose, hnone]

/-- Concrete instantiation of claim C3: null trajectory, and the [1, 2, 3]
trajectory with dt = 5 greater than all relative times. -/
theorem claim_C3_no_mutation_when_exhausted_witness :
    set_pose idQ fwd0 5 none actor0 = actor0 ∧
    set_pose idQ fwd0 5 (some traj123) actor0 = actor0 :=
  ⟨(claim_C3_no_mutation_when_exhausted idQ fwd0 5 actor0).1,
   (claim_C3_no_mutation_when_exhausted idQ fwd0 5 actor0).2 traj123
      (by norm_num [selectWaypoint, List.find?, traj123, tpAt])⟩

end CarlaRosBridge

namespace CarlaRosBridge

/-- Claim C5: the cyber (percentage-domain) inbound conversion divides brake
and throttle by 100, negates and divides the steering target by 100 (input 50
gives -0.5), copies the parking brake to hand_brake, and sets reverse exactly
when the gear position is the reverse-gear constant. -/
theorem claim_C5_cyber_control_mapping (c : ControlCommand) :
    (cyber_control_command_updated c).brake = c.brake / 100 ∧
    (cyber_control_command_updated c).throttle = c.throttle / 100 ∧
    (cyber_control_command_updated c).steer = -c.steering_target / 100 ∧
    (cyber_control_command_updated c).hand_brake = c.parking_brake ∧
    ((cyber_control_command_updated c).reverse = true ↔
      c.gear_location = GearPosition.gear_reverse) ∧
    (cyber_control_command_updated { c with steering_target := 50 }).steer = -(1/2) := by
  refine ⟨rfl, rfl, rfl, rfl, ?_, ?_⟩
  · simp [cyber_control_command_updated]
  · norm_num [cyber_control_command_updated]

/-- The outbound chassis throttle percentage (mkChassis) fed back through the
inbound cyber conversion: the round trip of claim C6 for the throttle. -/
def roundTripThrottle (sqrtFn : ℚ → ℚ) (inp : TickInput) (c : ControlCommand)
    (f : ℚ) : ℚ :=
  (cyber_control_command_updated
    { c with throttle :=
        (mkChassis sqrtFn
          { inp with control := { inp.control with throttle := f } }).throttle_percentage }).throttle

/-- The outbound chassis brake percentage fed back through the inbound cyber
conversion: the round trip of claim C6 for the brake. -/
def roundTripBrake (sqrtFn : ℚ → ℚ) (inp : TickInput) (c : ControlCommand)
    (f : ℚ) : ℚ :=
  (cyber_control_command_updated
    { c with brake :=
        (mkChassis sqrtFn
          { inp with control := { inp.control with brake := f } }).brake_percentage }).brake

/-- The outbound chassis steering percentage fed back through the inbound
cyber conversion: the round trip of claim C6 for the steering. -/
def roundTripSteer (sqrtFn : ℚ → ℚ) (inp : TickInput) (c : ControlCommand)
    (f : ℚ) : ℚ :=
  (cyber_control_command_updated
    { c with steering_target :=
        (mkChassis sqrtFn
          { inp with control := { inp.control with steer := f } }).steering_percentage }).steer

/-- A zero control echo, used in concrete inputs. -/
def control0 : ControlState := ⟨0, 0, 0, false, false, 0, false⟩

/-- Physics description with no wheels and zero parameters, used in
concrete inputs. -/
def physics0 : VehiclePhysics := ⟨[], 0, 0, 0, 0, 0, false, 0, 0, 0, 0, vec0⟩

/-- A pose at the origin with identity orientation, used in concrete
inputs. -/
def pose0 : Pose := ⟨vec0, quat0⟩

/-- A zero twist, used in concrete inputs. -/
def twist0 : Twist := ⟨vec0, vec0⟩

/-- A concrete tick input with challenge mode off and all-zero state. -/
def inp0 : TickInput := ⟨false, vec0, vec0, pose0, twist0, control0, physics0, "", ""⟩

/-- A concrete inbound cyber control command, gear in drive. -/
def cmd0 : ControlCommand := ⟨false, 0, 0, 0, GearPosition.gear_drive⟩

/-- Claim C6 is false for the steering field: the round trip through the
outbound chassis percentage and the inbound cyber conversion negates the
fraction. Starting from steer = 1/2, which lies in [0,1], it returns -1/2,
not 1/2. -/
theorem claim_C6_steer_roundtrip_counterexample :
    roundTripSteer idQ inp0 cmd0 (1/2) = -(1/2) ∧ -(1/2 : ℚ) ≠ 1/2 ∧
    (0 : ℚ) ≤ 1/2 ∧ (1/2 : ℚ) ≤ 1 := by
  refine ⟨?_, by norm_num, by norm_num, by norm_num⟩
  norm_num [roundTripSteer, mkChassis, cyber_control_command_updated, inp0, cmd0, idQ,
    control0, neg_div, mul_div_assoc]

/-- Claim C6 as amended: every fraction f in [0,1] scales to a percentage
f * 100 in [0,100]; the throttle and brake round trips through the outbound
chassis conversion and the inbound cyber conversion return f exactly; the
steering round trip returns the negation -f (exact only at f = 0), because
the inbound cyber conversion negates the steering while the outbound chassis
conversion does not. -/
theorem claim_C6_percentage_roundtrip_amended
    (sqrtFn : ℚ → ℚ) (inp : TickInput) (c : ControlCommand) (f : ℚ)
    (h0 : 0 ≤ f) (h1 : f ≤ 1) :
    (0 ≤ f * 100 ∧ f * 100 ≤ 100) ∧
    roundTripThrottle sqrtFn inp c f = f ∧
    roundTripBrake sqrtFn inp c f = f ∧
    roundTripSteer sqrtFn inp c f = -f := by
  refine ⟨⟨by nlinarith, by nlinarith⟩, ?_, ?_, ?_⟩ <;>
    norm_num [roundTripThrottle, roundTripBrake, roundTripSteer, mkChassis,
      cyber_control_command_updated, neg_div, mul_div_assoc]

/-- Concrete instantiation of the amended claim C6 at f = 1/2. -/
theorem claim_C6_percentage_roundtrip_amended_witness :
    (0 ≤ (1/2 : ℚ) ∧ (1/2 : ℚ) ≤ 1) ∧
    ((0 ≤ (1/2 : ℚ) * 100 ∧ (1/2 : ℚ) * 100 ≤ 100) ∧
      roundTripThrottle idQ inp0 cmd0 (1/2) = 1/2 ∧
      roundTripBrake idQ inp0 cmd0 (1/2) = 1/2 ∧
      roundTripSteer idQ inp0 cmd0 (1/2) = -(1/2)) :=
  ⟨⟨by norm_num, by norm_num⟩,
   claim_C6_percentage_roundtrip_amended idQ inp0 cmd0 (1/2) (by norm_num) (by norm_num)⟩

/-- The vehicle_info_published latch is true after every call of
send_vehicle_msgs. -/
theorem send_vehicle_msgs_latch_true (sqrtFn radiansFn : ℚ → ℚ)
    (eulerFn : Quaternion → ℚ × ℚ × ℚ) (inp : TickInput) (published : Bool) :
    (send_vehicle_msgs sqrtFn radiansFn eulerFn inp published).1 = true := by
  cases published <;> rfl

/-- A tick with the latch already set emits no vehicle-info message. -/
theorem countInfo_send_latch_set (sqrtFn radiansFn : ℚ → ℚ)
    (eulerFn : Quaternion → ℚ × ℚ × ℚ) (inp : TickInput) :
    countInfo (send_vehicle_msgs sqrtFn radiansFn eulerFn inp true).2 = 0 := by
  cases hcm : inp.challenge_mode <;>
    simp [send_vehicle_msgs, hcm, countInfo]

/-- A tick with the latch unset emits exactly one vehicle-info message. -/
theorem countInfo_send_latch_unset (sqrtFn radiansFn : ℚ → ℚ)
    (eulerFn : Quaternion → ℚ × ℚ × ℚ) (inp : TickInput) :
    countInfo (send_vehicle_msgs sqrtFn radiansFn eulerFn inp false).2 = 1 := by
  cases hcm : inp.challenge_mode <;>
    simp [send_vehicle_msgs, hcm, countInfo]

/-- With the latch set, no tick of a run emits a vehicle-info message. -/
theorem runTicks_latch_set_no_info (sqrtFn radiansFn : ℚ → ℚ)
    (eulerFn : Quaternion → ℚ × ℚ × ℚ) (l : List TickInput) :
    ((runTicks sqrtFn radiansFn eulerFn true l).map countInfo).sum = 0 := by
  induction l with
  | nil => simp [runTicks]
  | cons inp rest ih =>
    simp [runTicks, send_vehicle_msgs_latch_true, countInfo_send_latch_set, ih]

/-- Claim C4: starting from the unset latch, a run of one or more ticks of the
status publisher emits the static vehicle-info record exactly once: the first
tick emits it exactly once (and flips the latch), no later tick ever emits it
again, and the total over the whole run is one regardless of its length. -/
theorem claim_C4_vehicle_info_exactly_once
    (sqrtFn radiansFn : ℚ → ℚ) (eulerFn : Quaternion → ℚ × ℚ × ℚ)
    (first : TickInput) (rest : List TickInput) :
    runTicks sqrtFn radiansFn eulerFn false (first :: rest) =
      (send_vehicle_msgs sqrtFn radiansFn eulerFn first false).2 ::
        runTicks sqrtFn radiansFn eulerFn true rest ∧
    countInfo (send_vehicle_msgs sqrtFn radiansFn eulerFn first false).2 = 1 ∧
    ((runTicks sqrtFn radiansFn eulerFn true rest).map countInfo).sum = 0 ∧
    ((runTicks sqrtFn radiansFn eulerFn false (first :: rest)).map countInfo).sum = 1 := by
  refine ⟨?_, countInfo_send_latch_unset _ _ _ _, runTicks_latch_set_no_info _ _ _ _, ?_⟩
  · simp [runTicks, send_vehicle_msgs_latch_true]
  · simp [runTicks, send_vehicle_msgs_latch_true, countInfo_send_latch_unset,
      runTicks_latch_set_no_info]

end CarlaRosBridge

namespace CarlaRosBridge

/-- Claim C7: send_vehicle_msgs emits the odometry record and the derived
localization record exactly when the challenge-mode flag is false; every
emitted localization record has heading equal to the yaw component of the
Euler-angle conversion of the odometry orientation quaternion, and zero
linear acceleration. -/
theorem claim_C7_odometry_localization_gating
    (sqrtFn radiansFn : ℚ → ℚ) (eulerFn : Quaternion → ℚ × ℚ × ℚ)
    (inp : TickInput) (published : Bool) :
    ((∃ o, Emission.odometry o ∈
        (send_vehicle_msgs sqrtFn radiansFn eulerFn inp published).2) ↔
      inp.challenge_mode = false) ∧
    ((∃ lm, Emission.localization lm ∈
        (send_vehicle_msgs sqrtFn radiansFn eulerFn inp published).2) ↔
      inp.challenge_mode = false) ∧
    (∀ lm, Emission.localization lm ∈
        (send_vehicle_msgs sqrtFn radiansFn eulerFn inp published).2 →
      lm.heading = (eulerFn (mkOdometry inp).pose.orientation).2.2 ∧
      lm.linear_acceleration_vrf = ⟨0, 0, 0⟩) := by
  cases hcm : inp.challenge_mode <;> cases published <;>
    simp [send_vehicle_msgs, hcm, mkLocalization, mkOdometry]

/-- Concrete instantiation of claim C7: with challenge mode off, the emitted
localization record has the Euler yaw heading and zero linear acceleration. -/
theorem claim_C7_odometry_localization_gating_witness :
    (mkLocalization euler0 (mkOdometry inp0)).heading =
      (euler0 (mkOdometry inp0).pose.orientation).2.2 ∧
    (mkLocalization euler0 (mkOdometry inp0)).linear_acceleration_vrf = ⟨0, 0, 0⟩ :=
  (claim_C7_odometry_localization_gating idQ idQ euler0 inp0 false).2.2
    (mkLocalization euler0 (mkOdometry inp0))
    (by simp [send_vehicle_msgs, inp0])

/-- Claim C8: the speed and acceleration magnitudes computed by
get_vehicle_speed_abs and get_vehicle_acceleration_abs are the Euclidean norm
sqrt(x^2 + y^2 + z^2) of the corresponding 3D vector and are non-negative;
the emitted status velocity, status acceleration and chassis speed fields are
exactly these magnitudes (math.sqrt applied to the squared Euclidean
length). -/
theorem claim_C8_speed_euclidean_norm :
    (∀ v : RealSem.Vec3,
        RealSem.get_vehicle_speed_abs v = Real.sqrt (v.x ^ 2 + v.y ^ 2 + v.z ^ 2) ∧
        0 ≤ RealSem.get_vehicle_speed_abs v ∧
        RealSem.get_vehicle_acceleration_abs v =
          Real.sqrt (v.x ^ 2 + v.y ^ 2 + v.z ^ 2) ∧
        0 ≤ RealSem.get_vehicle_acceleration_abs v) ∧
    (∀ (sqrtFn : ℚ → ℚ) (inp : TickInput),
        (mkVehicleStatus sqrtFn inp).velocity =
          get_vehicle_speed_abs sqrtFn inp.velocity ∧
        (mkVehicleStatus sqrtFn inp).acceleration =
          get_vehicle_acceleration_abs sqrtFn inp.acceleration ∧
        (mkChassis sqrtFn inp).speed_mps = get_vehicle_speed_abs sqrtFn inp.velocity) := by
  constructor
  · intro v
    refine ⟨congrArg Real.sqrt (by simp only [RealSem.get_vector_length_squared]; ring),
      Real.sqrt_nonneg _,
      congrArg Real.sqrt (by simp only [RealSem.get_vector_length_squared]; ring),
      Real.sqrt_nonneg _⟩
  · intro sqrtFn inp
    exact ⟨rfl, rfl, rfl⟩

/-- Claim C9: the localization record copies position x and y from the
odometry pose and hardcodes position z to 0 regardless of the odometry z
value; with challenge mode off, the localization record built this way is
among the tick's emissions. -/
theorem claim_C9_localization_zero_z
    (sqrtFn radiansFn : ℚ → ℚ) (eulerFn : Quaternion → ℚ × ℚ × ℚ)
    (inp : TickInput) (published : Bool) (odometry : Odometry) :
    (mkLocalization eulerFn odometry).position.z = 0 ∧
    (mkLocalization eulerFn odometry).position.x = odometry.pose.position.x ∧
    (mkLocalization eulerFn odometry).position.y = odometry.pose.position.y ∧
    Emission.localization
        (mkLocalization eulerFn (mkOdometry { inp with challenge_mode := false })) ∈
      (send_vehicle_msgs sqrtFn radiansFn eulerFn
        { inp with challenge_mode := false } published).2 := by
  refine ⟨rfl, rfl, rfl, ?_⟩
  cases published <;> simp [send_vehicle_msgs]

/-- Claim C10 fails on the code: get_filtered_objectarray compares the filter
id with the child actor ids by Python object identity (`is not`), not by
numeric equality. A Vehicle child whose id has the same numeric value 1000 as
the filter id, but stored as a distinct int object, is still included: its
object message 7 appears in the output, although the claim says the actor
with the filter id is never included. The non-Vehicle child is excluded. -/
theorem claim_C10_filter_identity_semantics :
    get_filtered_objectarray
        [(⟨1, 1000⟩, ChildActor.vehicle 7), (⟨3, 5⟩, ChildActor.other)] ⟨2, 1000⟩ =
      [7] ∧
    (⟨2, 1000⟩ : PyInt).val = (⟨1, 1000⟩ : PyInt).val ∧
    (⟨2, 1000⟩ : PyInt).objId ≠ (⟨1, 1000⟩ : PyInt).objId := by
  refine ⟨by decide, rfl, by decide⟩

end CarlaRosBridge
